import Mathlib

/-!
Verification of the Atomic Multi-File Repository Mutation Engine: a shallow
embedding of the GitHub File Operations MCP server's `commit_files` and
`delete_files` tool handlers.  Network interactions are modelled by an
`Oracle` fixing the store's response to each of the five object-store
operations, and each run returns both its outcome and the ordered list of
object-store calls it issued, so that sequencing, atomicity and
"before any network call" properties can be stated and proved.
-/

namespace GithubFileOps

/-- A non-2xx HTTP response: its status code and the provider error payload
text obtained from `response.text()`. -/
structure HttpFailure where
  status : Nat
  body : String
deriving DecidableEq, Repr

/-- Parsed body of a successful get-ref response (`GitHubRef`): the
`object.sha` field, i.e. the branch tip commit hash. -/
structure GitHubRef where
  object_sha : String
deriving DecidableEq, Repr

/-- Parsed body of a successful get-commit response (`GitHubCommit`): the
`tree.sha` field, i.e. the commit's root tree hash. -/
structure GitHubCommit where
  tree_sha : String
deriving DecidableEq, Repr

/-- Parsed body of a successful create-tree response (`GitHubTree`). -/
structure GitHubTree where
  sha : String
deriving DecidableEq, Repr

/-- Parsed body of a successful create-commit response (`GitHubNewCommit`). -/
structure GitHubNewCommit where
  sha : String
  message : String
  author_name : String
  author_date : String
deriving DecidableEq, Repr

/-- One entry of the `tree` array sent to create-tree: `commit_files` sends
`\x7bpath, mode, type, content\x7d` entries and `delete_files` sends
`\x7bpath, mode, type, sha: null\x7d` entries. -/
inductive TreeEntrySpec where
  | content (path mode type content : String)
  | shaNull (path mode type : String)
deriving DecidableEq, Repr

/-- The path carried by a tree entry. -/
def TreeEntrySpec.path : TreeEntrySpec → String
  | .content p _ _ _ => p
  | .shaNull p _ _ => p

/-- One object-store (network) call, carrying the semantically relevant
parts of the request the handler sends. -/
inductive ApiCall where
  | getRef (branch : String)
  | getCommit (sha : String)
  | createTree (baseTreeSha : String) (entries : List TreeEntrySpec)
  | createCommit (message : String) (treeSha : String) (parents : List String)
  | updateRef (branch : String) (sha : String) (force : Bool)
deriving DecidableEq, Repr

/-- Ambient configuration: the environment variables the server reads at
startup (`REPO_OWNER`, `REPO_NAME`, `BRANCH_NAME`, `REPO_DIR`). -/
structure Env where
  repoOwner : String
  repoName : String
  branchName : String
  repoDir : String
deriving DecidableEq, Repr

/-- The environment a single tool invocation runs against: the value of
`process.env.GITHUB_TOKEN`, the store's response to each of the five
object-store operations this call would issue, the local filesystem
(`readFile`, path to content or a rejection message), and `process.cwd()`. -/
structure Oracle where
  githubToken : Option String
  refResp : Except HttpFailure GitHubRef
  commitResp : Except HttpFailure GitHubCommit
  treeResp : Except HttpFailure GitHubTree
  newCommitResp : Except HttpFailure GitHubNewCommit
  updateRefResp : Except HttpFailure Unit
  readFile : String → Except String String
  cwd : String

/-- JS truthiness test performed by `if (!githubToken)`: `undefined` and the
empty string are both falsy. -/
def tokenPresent : Option String → Bool
  | none => false
  | some s => s != ""

/-- The `commit` part of the simplified result object. -/
structure CommitInfo where
  sha : String
  message : String
  author : String
  date : String
deriving DecidableEq, Repr

/-- The `tree` part of the simplified result object. -/
structure TreeInfo where
  sha : String
deriving DecidableEq, Repr

/-- The simplified result of `commit_files`: `\x7bcommit, files, tree\x7d`,
where `files` is the list of processed paths (each rendered `\x7bpath\x7d`). -/
structure CommitFilesResult where
  commit : CommitInfo
  files : List String
  tree : TreeInfo
deriving DecidableEq, Repr

/-- The simplified result of `delete_files`: `\x7bcommit, deletedFiles, tree\x7d`. -/
structure DeleteFilesResult where
  commit : CommitInfo
  deletedFiles : List String
  tree : TreeInfo
deriving DecidableEq, Repr

/-- JS `String.prototype.startsWith`, modelled on the character sequence. -/
def jsStartsWith (s pre : String) : Bool :=
  pre.data.isPrefixOf s.data

/-- JS `String.prototype.slice(n)` for a non-negative start index, modelled
on the character sequence. -/
def jsSliceFrom (s : String) (n : Nat) : String :=
  ⟨s.data.drop n⟩

/-- Splitting a character sequence at every `/`. -/
def splitOnSlashAux : List Char → List (List Char)
  | [] => [[]]
  | a :: rest =>
    if a = '/' then [] :: splitOnSlashAux rest
    else
      match splitOnSlashAux rest with
      | [] => [[a]]
      | g :: gs => (a :: g) :: gs

/-- Splitting a string on the path separator. -/
def splitOnSlash (s : String) : List String :=
  (splitOnSlashAux s.data).map fun l => ⟨l⟩

/-- POSIX path normalization of segment lists, as performed by node's
`path.normalize`: empty and `.` segments vanish, `..` pops the previous
segment (dropped at the root of an absolute path, kept for a relative one). -/
def normSegs (isAbs : Bool) : List String → List String → List String
  | stack, [] => stack.reverse
  | stack, seg :: rest =>
    if seg = "" ∨ seg = "." then normSegs isAbs stack rest
    else if seg = ".." then
      match stack with
      | [] => if isAbs then normSegs isAbs [] rest else normSegs isAbs [".."] rest
      | top :: tl =>
        if top = ".." then normSegs isAbs (seg :: top :: tl) rest
        else normSegs isAbs tl rest
    else normSegs isAbs (seg :: stack) rest

/-- Node `path.posix.normalize` restricted to what `path.join` needs: no
trailing-separator preservation (the joined operands here never end in a
separator). -/
def posixNormalize (p : String) : String :=
  let isAbs := jsStartsWith p "/"
  let segs := normSegs isAbs [] (splitOnSlash p)
  let body := String.intercalate "/" segs
  if isAbs then (if body = "" then "/" else "/" ++ body)
  else (if body = "" then "." else body)

/-- Node `path.join(a, b)`: concatenate the non-empty operands with a
separator, then normalize. -/
def posixJoin (a b : String) : String :=
  if a = "" then (if b = "" then "." else posixNormalize b)
  else if b = "" then posixNormalize a
  else posixNormalize (a ++ "/" ++ b)

/-- Path processing of `commit_files`: a single leading separator is
stripped; any other path is passed through. -/
def processedCommitPath (filePath : String) : String :=
  if jsStartsWith filePath "/" then jsSliceFrom filePath 1 else filePath

/-- The local path `commit_files` reads a processed file path from: the path
itself when it (still) starts with a separator, otherwise
`join(REPO_DIR, filePath)`. -/
def commitFullPath (repoDir filePath : String) : String :=
  if jsStartsWith filePath "/" then filePath else posixJoin repoDir filePath

/-- Step 3 of `commit_files`: read each processed file from the local
filesystem and form its `\x7bpath, mode: "100644", type: "blob", content\x7d`
tree entry; the first failing read rejects the whole batch. -/
def buildWriteEntries (o : Oracle) (repoDir : String) :
    List String → Except String (List TreeEntrySpec)
  | [] => .ok []
  | filePath :: rest =>
    match o.readFile (commitFullPath repoDir filePath) with
    | .error m => .error m
    | .ok content =>
      match buildWriteEntries o repoDir rest with
      | .error m => .error m
      | .ok es => .ok (TreeEntrySpec.content filePath "100644" "blob" content :: es)

/-- Path processing of `delete_files` for one path: an absolute path inside
the current working directory is made cwd-relative by dropping
`cwd.length + 1` characters; any other absolute path is rejected; relative
paths pass through. -/
def processedDeletePath (cwd filePath : String) : Except String String :=
  if jsStartsWith filePath "/" then
    if jsStartsWith filePath cwd then .ok (jsSliceFrom filePath (cwd.length + 1))
    else
      .error ("Path \x27" ++ filePath ++
        "\x27 must be relative to repository root or within current working directory")
  else .ok filePath

/-- Path processing of `delete_files` over the whole input list: the first
rejected path aborts the map with its error. -/
def processDeletePaths (cwd : String) : List String → Except String (List String)
  | [] => .ok []
  | p :: rest =>
    match processedDeletePath cwd p with
    | .error m => .error m
    | .ok q =>
      match processDeletePaths cwd rest with
      | .error m => .error m
      | .ok qs => .ok (q :: qs)

/-- Step 3 of `delete_files`: one `\x7bpath, mode: "100644", type: "blob",
sha: null\x7d` entry per processed path. -/
def deleteTreeEntries (ps : List String) : List TreeEntrySpec :=
  ps.map fun p => TreeEntrySpec.shaNull p "100644" "blob"

/-- The body of the `commit_files` handler's `try` block, as a function of
the run environment: the outcome (`.ok` carries the simplified result,
`.error` the thrown message) together with the ordered list of object-store
calls issued before returning. -/
def commit_files_run (env : Env) (o : Oracle) (files : List String)
    (message : String) : Except String CommitFilesResult × List ApiCall :=
  if tokenPresent o.githubToken then
    match o.refResp with
    | .error f =>
      (.error ("Failed to get branch reference: " ++ toString f.status),
        [ApiCall.getRef env.branchName])
    | .ok refData =>
      match o.commitResp with
      | .error f =>
        (.error ("Failed to get base commit: " ++ toString f.status),
          [ApiCall.getRef env.branchName, ApiCall.getCommit refData.object_sha])
      | .ok commitData =>
        match buildWriteEntries o env.repoDir (files.map processedCommitPath) with
        | .error m =>
          (.error m,
            [ApiCall.getRef env.branchName, ApiCall.getCommit refData.object_sha])
        | .ok treeEntries =>
          match o.treeResp with
          | .error f =>
            (.error ("Failed to create tree: " ++ toString f.status ++ " - " ++ f.body),
              [ApiCall.getRef env.branchName, ApiCall.getCommit refData.object_sha,
               ApiCall.createTree commitData.tree_sha treeEntries])
          | .ok treeData =>
            match o.newCommitResp with
            | .error f =>
              (.error ("Failed to create commit: " ++ toString f.status ++ " - " ++ f.body),
                [ApiCall.getRef env.branchName, ApiCall.getCommit refData.object_sha,
                 ApiCall.createTree commitData.tree_sha treeEntries,
                 ApiCall.createCommit message treeData.sha [refData.object_sha]])
            | .ok newCommitData =>
              match o.updateRefResp with
              | .error f =>
                (.error ("Failed to update reference: " ++ toString f.status ++ " - " ++ f.body),
                  [ApiCall.getRef env.branchName, ApiCall.getCommit refData.object_sha,
                   ApiCall.createTree commitData.tree_sha treeEntries,
                   ApiCall.createCommit message treeData.sha [refData.object_sha],
                   ApiCall.updateRef env.branchName newCommitData.sha false])
              | .ok _ =>
                (.ok ⟨⟨newCommitData.sha, newCommitData.message,
                       newCommitData.author_name, newCommitData.author_date⟩,
                      files.map processedCommitPath, ⟨treeData.sha⟩⟩,
                  [ApiCall.getRef env.branchName, ApiCall.getCommit refData.object_sha,
                   ApiCall.createTree commitData.tree_sha treeEntries,
                   ApiCall.createCommit message treeData.sha [refData.object_sha],
                   ApiCall.updateRef env.branchName newCommitData.sha false])
  else (.error "GITHUB_TOKEN environment variable is required", [])

/-- The body of the `delete_files` handler's `try` block, analogous to
`commit_files_run`: the token check comes first, then path processing (which
can throw, before any network call), then the same six-step sequence with
null-sha tree entries and no local reads. -/
def delete_files_run (env : Env) (o : Oracle) (paths : List String)
    (message : String) : Except String DeleteFilesResult × List ApiCall :=
  if tokenPresent o.githubToken then
    match processDeletePaths o.cwd paths with
    | .error m => (.error m, [])
    | .ok processedPaths =>
      match o.refResp with
      | .error f =>
        (.error ("Failed to get branch reference: " ++ toString f.status),
          [ApiCall.getRef env.branchName])
      | .ok refData =>
        match o.commitResp with
        | .error f =>
          (.error ("Failed to get base commit: " ++ toString f.status),
            [ApiCall.getRef env.branchName, ApiCall.getCommit refData.object_sha])
        | .ok commitData =>
          match o.treeResp with
          | .error f =>
            (.error ("Failed to create tree: " ++ toString f.status ++ " - " ++ f.body),
              [ApiCall.getRef env.branchName, ApiCall.getCommit refData.object_sha,
               ApiCall.createTree commitData.tree_sha (deleteTreeEntries processedPaths)])
          | .ok treeData =>
            match o.newCommitResp with
            | .error f =>
              (.error ("Failed to create commit: " ++ toString f.status ++ " - " ++ f.body),
                [ApiCall.getRef env.branchName, ApiCall.getCommit refData.object_sha,
                 ApiCall.createTree commitData.tree_sha (deleteTreeEntries processedPaths),
                 ApiCall.createCommit message treeData.sha [refData.object_sha]])
            | .ok newCommitData =>
              match o.updateRefResp with
              | .error f =>
                (.error ("Failed to update reference: " ++ toString f.status ++ " - " ++ f.body),
                  [ApiCall.getRef env.branchName, ApiCall.getCommit refData.object_sha,
                   ApiCall.createTree commitData.tree_sha (deleteTreeEntries processedPaths),
                   ApiCall.createCommit message treeData.sha [refData.object_sha],
                   ApiCall.updateRef env.branchName newCommitData.sha false])
              | .ok _ =>
                (.ok ⟨⟨newCommitData.sha, newCommitData.message,
                       newCommitData.author_name, newCommitData.author_date⟩,
                      processedPaths, ⟨treeData.sha⟩⟩,
                  [ApiCall.getRef env.branchName, ApiCall.getCommit refData.object_sha,
                   ApiCall.createTree commitData.tree_sha (deleteTreeEntries processedPaths),
                   ApiCall.createCommit message treeData.sha [refData.object_sha],
                   ApiCall.updateRef env.branchName newCommitData.sha false])
  else (.error "GITHUB_TOKEN environment variable is required", [])

/-- JSON escaping of one character, as performed by `JSON.stringify` on
string values. -/
def jsonEscapeChar (c : Char) : String :=
  if c = '"' then "\\\""
  else if c = '\\' then "\\\\"
  else if c = '\n' then "\\n"
  else if c = '\r' then "\\r"
  else if c = '\t' then "\\t"
  else if c.toNat = 8 then "\\b"
  else if c.toNat = 12 then "\\f"
  else if c.toNat < 32 then
    "\\u00" ++ String.singleton (Nat.digitChar (c.toNat / 16)) ++
      String.singleton (Nat.digitChar (c.toNat % 16))
  else String.singleton c

/-- A JSON string literal for `s`. -/
def jsonStr (s : String) : String :=
  "\"" ++ String.join (s.data.map jsonEscapeChar) ++ "\""

/-- The `files` (or `deletedFiles`) array of the simplified result, rendered
as `JSON.stringify(·, null, 2)` renders a list of `\x7bpath\x7d` objects
nested at depth one. -/
def renderPathObjArray (paths : List String) : String :=
  match paths with
  | [] => "[]"
  | _ =>
    "[\n" ++
      String.intercalate ",\n"
        (paths.map fun p =>
          "    \x7b\n      \"path\": " ++ jsonStr p ++ "\n    \x7d") ++
      "\n  ]"

/-- The `commit` object of the simplified result, rendered at depth one. -/
def renderCommitInfo (c : CommitInfo) : String :=
  "\x7b\n    \"sha\": " ++ jsonStr c.sha ++
    ",\n    \"message\": " ++ jsonStr c.message ++
    ",\n    \"author\": " ++ jsonStr c.author ++
    ",\n    \"date\": " ++ jsonStr c.date ++ "\n  \x7d"

/-- The `tree` object of the simplified result, rendered at depth one. -/
def renderTreeInfo (t : TreeInfo) : String :=
  "\x7b\n    \"sha\": " ++ jsonStr t.sha ++ "\n  \x7d"

/-- `JSON.stringify(simplifiedResult, null, 2)` for `commit_files`. -/
def renderCommitFilesResult (r : CommitFilesResult) : String :=
  "\x7b\n  \"commit\": " ++ renderCommitInfo r.commit ++
    ",\n  \"files\": " ++ renderPathObjArray r.files ++
    ",\n  \"tree\": " ++ renderTreeInfo r.tree ++ "\n\x7d"

/-- `JSON.stringify(simplifiedResult, null, 2)` for `delete_files`. -/
def renderDeleteFilesResult (r : DeleteFilesResult) : String :=
  "\x7b\n  \"commit\": " ++ renderCommitInfo r.commit ++
    ",\n  \"deletedFiles\": " ++ renderPathObjArray r.deletedFiles ++
    ",\n  \"tree\": " ++ renderTreeInfo r.tree ++ "\n\x7d"

/-- The in-band result a tool handler returns to the MCP server: the text of
its single content block, and the `isError` flag (absent on the success path,
which the model renders as `false`). -/
structure ToolResult where
  text : String
  isError : Bool
deriving DecidableEq, Repr

/-- The whole `commit_files` handler, `catch` included: a thrown error is
converted into an in-band `isError` result carrying `"Error: "` plus the
message; nothing escapes and no step is re-run. -/
def commit_files_tool (env : Env) (o : Oracle) (files : List String)
    (message : String) : ToolResult × List ApiCall :=
  match commit_files_run env o files message with
  | (.ok r, tr) => (⟨renderCommitFilesResult r, false⟩, tr)
  | (.error m, tr) => (⟨"Error: " ++ m, true⟩, tr)

/-- The whole `delete_files` handler, `catch` included. -/
def delete_files_tool (env : Env) (o : Oracle) (paths : List String)
    (message : String) : ToolResult × List ApiCall :=
  match delete_files_run env o paths message with
  | (.ok r, tr) => (⟨renderDeleteFilesResult r, false⟩, tr)
  | (.error m, tr) => (⟨"Error: " ++ m, true⟩, tr)

/-- Position of a call in the six-step script (steps 4.1/4.2/4.4/4.5/4.6 of
the spec; step 4.3 is local). -/
def scriptOrder : ApiCall → Nat
  | .getRef _ => 0
  | .getCommit _ => 1
  | .createTree _ _ => 2
  | .createCommit _ _ _ => 3
  | .updateRef _ _ _ => 4

/-- Whether a call is the branch-reference update. -/
def isUpdateRefCall : ApiCall → Bool
  | .updateRef _ _ _ => true
  | _ => false

/-- The update-ref calls within a trace. -/
def updateRefCalls (tr : List ApiCall) : List ApiCall :=
  tr.filter isUpdateRefCall

/-- The branch tip after the store has served a trace, starting from
`initial`: only an update-ref call the store accepts (per the oracle) moves
the branch; every other call is a read or creates unreachable objects. -/
def finalBranchSha (o : Oracle) (initial : String) : List ApiCall → String
  | [] => initial
  | c :: rest =>
    match c with
    | .updateRef _ sha _ =>
      match o.updateRefResp with
      | .ok _ => finalBranchSha o sha rest
      | .error _ => finalBranchSha o initial rest
    | _ => finalBranchSha o initial rest

/-- Concrete configuration used by the scenario claims: repo root
`/work/repo`, branch `main`. -/
def env0 : Env := ⟨"o", "r", "main", "/work/repo"⟩

/-- All-success oracle for the scenario claims: branch `main` at commit `H0`
with tree `T0`; the store answers `T1` for create-tree and `H1` for
create-commit; every local read succeeds and returns a content tag recording
the path that was read. -/
def okOracle : Oracle :=
  ⟨some "tok",
   .ok ⟨"H0"⟩, .ok ⟨"T0"⟩, .ok ⟨"T1"⟩,
   .ok ⟨"H1", "init", "alice", "2024-01-01"⟩, .ok (),
   fun p => .ok ("contents:" ++ p), "/work/repo"⟩

/-- Like `okOracle` but the branch tip read in step 1 is `H0ALT`. -/
def okOracleAlt : Oracle :=
  ⟨some "tok",
   .ok ⟨"H0ALT"⟩, .ok ⟨"T0"⟩, .ok ⟨"T1"⟩,
   .ok ⟨"H1", "init", "alice", "2024-01-01"⟩, .ok (),
   fun p => .ok ("contents:" ++ p), "/work/repo"⟩

/-- Like `okOracle` but get-ref fails with status 404 and payload
`payload one`. -/
def refFailOracleA : Oracle :=
  ⟨some "tok",
   .error ⟨404, "payload one"⟩, .ok ⟨"T0"⟩, .ok ⟨"T1"⟩,
   .ok ⟨"H1", "init", "alice", "2024-01-01"⟩, .ok (),
   fun p => .ok ("contents:" ++ p), "/work/repo"⟩

/-- Like `refFailOracleA` but the get-ref failure payload is `payload two`. -/
def refFailOracleB : Oracle :=
  ⟨some "tok",
   .error ⟨404, "payload two"⟩, .ok ⟨"T0"⟩, .ok ⟨"T1"⟩,
   .ok ⟨"H1", "init", "alice", "2024-01-01"⟩, .ok (),
   fun p => .ok ("contents:" ++ p), "/work/repo"⟩

/-! Characterization lemmas: one equation per way a run can unfold, used by
the claim theorems below. -/

theorem commit_run_no_token (env : Env) (o : Oracle) (files : List String)
    (msg : String) (htok : tokenPresent o.githubToken = false) :
    commit_files_run env o files msg
      = (.error "GITHUB_TOKEN environment variable is required", []) := by
  simp only [commit_files_run, htok, Bool.false_eq_true, if_false]

theorem commit_run_ref_err (env : Env) (o : Oracle) (files : List String)
    (msg : String) (f : HttpFailure)
    (htok : tokenPresent o.githubToken = true) (hr : o.refResp = .error f) :
    commit_files_run env o files msg
      = (.error ("Failed to get branch reference: " ++ toString f.status),
         [ApiCall.getRef env.branchName]) := by
  simp only [commit_files_run, htok, hr, if_true]

theorem commit_run_commit_err (env : Env) (o : Oracle) (files : List String)
    (msg : String) (r : GitHubRef) (f : HttpFailure)
    (htok : tokenPresent o.githubToken = true)
    (hr : o.refResp = .ok r) (hc : o.commitResp = .error f) :
    commit_files_run env o files msg
      = (.error ("Failed to get base commit: " ++ toString f.status),
         [ApiCall.getRef env.branchName, ApiCall.getCommit r.object_sha]) := by
  simp only [commit_files_run, htok, hr, hc, if_true]

theorem commit_run_read_err (env : Env) (o : Oracle) (files : List String)
    (msg : String) (r : GitHubRef) (c : GitHubCommit) (m : String)
    (htok : tokenPresent o.githubToken = true)
    (hr : o.refResp = .ok r) (hc : o.commitResp = .ok c)
    (hes : buildWriteEntries o env.repoDir (files.map processedCommitPath) = .error m) :
    commit_files_run env o files msg
      = (.error m,
         [ApiCall.getRef env.branchName, ApiCall.getCommit r.object_sha]) := by
  simp only [commit_files_run, htok, hr, hc, hes, if_true]

theorem commit_run_tree_err (env : Env) (o : Oracle) (files : List String)
    (msg : String) (r : GitHubRef) (c : GitHubCommit) (es : List TreeEntrySpec)
    (f : HttpFailure)
    (htok : tokenPresent o.githubToken = true)
    (hr : o.refResp = .ok r) (hc : o.commitResp = .ok c)
    (hes : buildWriteEntries o env.repoDir (files.map processedCommitPath) = .ok es)
    (ht : o.treeResp = .error f) :
    commit_files_run env o files msg
      = (.error ("Failed to create tree: " ++ toString f.status ++ " - " ++ f.body),
         [ApiCall.getRef env.branchName, ApiCall.getCommit r.object_sha,
          ApiCall.createTree c.tree_sha es]) := by
  simp only [commit_files_run, htok, hr, hc, hes, ht, if_true]

theorem commit_run_newCommit_err (env : Env) (o : Oracle) (files : List String)
    (msg : String) (r : GitHubRef) (c : GitHubCommit) (es : List TreeEntrySpec)
    (t : GitHubTree) (f : HttpFailure)
    (htok : tokenPresent o.githubToken = true)
    (hr : o.refResp = .ok r) (hc : o.commitResp = .ok c)
    (hes : buildWriteEntries o env.repoDir (files.map processedCommitPath) = .ok es)
    (ht : o.treeResp = .ok t) (hn : o.newCommitResp = .error f) :
    commit_files_run env o files msg
      = (.error ("Failed to create commit: " ++ toString f.status ++ " - " ++ f.body),
         [ApiCall.getRef env.branchName, ApiCall.getCommit r.object_sha,
          ApiCall.createTree c.tree_sha es,
          ApiCall.createCommit msg t.sha [r.object_sha]]) := by
  simp only [commit_files_run, htok, hr, hc, hes, ht, hn, if_true]

theorem commit_run_updateRef_err (env : Env) (o : Oracle) (files : List String)
    (msg : String) (r : GitHubRef) (c : GitHubCommit) (es : List TreeEntrySpec)
    (t : GitHubTree) (n : GitHubNewCommit) (f : HttpFailure)
    (htok : tokenPresent o.githubToken = true)
    (hr : o.refResp = .ok r) (hc : o.commitResp = .ok c)
    (hes : buildWriteEntries o env.repoDir (files.map processedCommitPath) = .ok es)
    (ht : o.treeResp = .ok t) (hn : o.newCommitResp = .ok n)
    (hu : o.updateRefResp = .error f) :
    commit_files_run env o files msg
      = (.error ("Failed to update reference: " ++ toString f.status ++ " - " ++ f.body),
         [ApiCall.getRef env.branchName, ApiCall.getCommit r.object_sha,
          ApiCall.createTree c.tree_sha es,
          ApiCall.createCommit msg t.sha [r.object_sha],
          ApiCall.updateRef env.branchName n.sha false]) := by
  simp only [commit_files_run, htok, hr, hc, hes, ht, hn, hu, if_true]

theorem commit_run_ok (env : Env) (o : Oracle) (files : List String) (msg : String)
    (r : GitHubRef) (c : GitHubCommit) (es : List TreeEntrySpec) (t : GitHubTree)
    (n : GitHubNewCommit)
    (htok : tokenPresent o.githubToken = true)
    (hr : o.refResp = .ok r) (hc : o.commitResp = .ok c)
    (hes : buildWriteEntries o env.repoDir (files.map processedCommitPath) = .ok es)
    (ht : o.treeResp = .ok t) (hn : o.newCommitResp = .ok n)
    (hu : o.updateRefResp = .ok ()) :
    commit_files_run env o files msg
      = (.ok ⟨⟨n.sha, n.message, n.author_name, n.author_date⟩,
              files.map processedCommitPath, ⟨t.sha⟩⟩,
         [ApiCall.getRef env.branchName, ApiCall.getCommit r.object_sha,
          ApiCall.createTree c.tree_sha es,
          ApiCall.createCommit msg t.sha [r.object_sha],
          ApiCall.updateRef env.branchName n.sha false]) := by
  simp only [commit_files_run, htok, hr, hc, hes, ht, hn, hu, if_true]

theorem delete_run_no_token (env : Env) (o : Oracle) (paths : List String)
    (msg : String) (htok : tokenPresent o.githubToken = false) :
    delete_files_run env o paths msg
      = (.error "GITHUB_TOKEN environment variable is required", []) := by
  simp only [delete_files_run, htok, Bool.false_eq_true, if_false]

theorem delete_run_paths_err (env : Env) (o : Oracle) (paths : List String)
    (msg : String) (m : String)
    (htok : tokenPresent o.githubToken = true)
    (hp : processDeletePaths o.cwd paths = .error m) :
    delete_files_run env o paths msg = (.error m, []) := by
  simp only [delete_files_run, htok, hp, if_true]

theorem delete_run_ref_err (env : Env) (o : Oracle) (paths : List String)
    (msg : String) (pp : List String) (f : HttpFailure)
    (htok : tokenPresent o.githubToken = true)
    (hp : processDeletePaths o.cwd paths = .ok pp) (hr : o.refResp = .error f) :
    delete_files_run env o paths msg
      = (.error ("Failed to get branch reference: " ++ toString f.status),
         [ApiCall.getRef env.branchName]) := by
  simp only [delete_files_run, htok, hp, hr, if_true]

theorem delete_run_commit_err (env : Env) (o : Oracle) (paths : List String)
    (msg : String) (pp : List String) (r : GitHubRef) (f : HttpFailure)
    (htok : tokenPresent o.githubToken = true)
    (hp : processDeletePaths o.cwd paths = .ok pp)
    (hr : o.refResp = .ok r) (hc : o.commitResp = .error f) :
    delete_files_run env o paths msg
      = (.error ("Failed to get base commit: " ++ toString f.status),
         [ApiCall.getRef env.branchName, ApiCall.getCommit r.object_sha]) := by
  simp only [delete_files_run, htok, hp, hr, hc, if_true]

theorem delete_run_tree_err (env : Env) (o : Oracle) (paths : List String)
    (msg : String) (pp : List String) (r : GitHubRef) (c : GitHubCommit)
    (f : HttpFailure)
    (htok : tokenPresent o.githubToken = true)
    (hp : processDeletePaths o.cwd paths = .ok pp)
    (hr : o.refResp = .ok r) (hc : o.commitResp = .ok c)
    (ht : o.treeResp = .error f) :
    delete_files_run env o paths msg
      = (.error ("Failed to create tree: " ++ toString f.status ++ " - " ++ f.body),
         [ApiCall.getRef env.branchName, ApiCall.getCommit r.object_sha,
          ApiCall.createTree c.tree_sha (deleteTreeEntries pp)]) := by
  simp only [delete_files_run, htok, hp, hr, hc, ht, if_true]

theorem delete_run_newCommit_err (env : Env) (o : Oracle) (paths : List String)
    (msg : String) (pp : List String) (r : GitHubRef) (c : GitHubCommit)
    (t : GitHubTree) (f : HttpFailure)
    (htok : tokenPresent o.githubToken = true)
    (hp : processDeletePaths o.cwd paths = .ok pp)
    (hr : o.refResp = .ok r) (hc : o.commitResp = .ok c)
    (ht : o.treeResp = .ok t) (hn : o.newCommitResp = .error f) :
    delete_files_run env o paths msg
      = (.error ("Failed to create commit: " ++ toString f.status ++ " - " ++ f.body),
         [ApiCall.getRef env.branchName, ApiCall.getCommit r.object_sha,
          ApiCall.createTree c.tree_sha (deleteTreeEntries pp),
          ApiCall.createCommit msg t.sha [r.object_sha]]) := by
  simp only [delete_files_run, htok, hp, hr, hc, ht, hn, if_true]

theorem delete_run_updateRef_err (env : Env) (o : Oracle) (paths : List String)
    (msg : String) (pp : List String) (r : GitHubRef) (c : GitHubCommit)
    (t : GitHubTree) (n : GitHubNewCommit) (f : HttpFailure)
    (htok : tokenPresent o.githubToken = true)
    (hp : processDeletePaths o.cwd paths = .ok pp)
    (hr : o.refResp = .ok r) (hc : o.commitResp = .ok c)
    (ht : o.treeResp = .ok t) (hn : o.newCommitResp = .ok n)
    (hu : o.updateRefResp = .error f) :
    delete_files_run env o paths msg
      = (.error ("Failed to update reference: " ++ toString f.status ++ " - " ++ f.body),
         [ApiCall.getRef env.branchName, ApiCall.getCommit r.object_sha,
          ApiCall.createTree c.tree_sha (deleteTreeEntries pp),
          ApiCall.createCommit msg t.sha [r.object_sha],
          ApiCall.updateRef env.branchName n.sha false]) := by
  simp only [delete_files_run, htok, hp, hr, hc, ht, hn, hu, if_true]

theorem delete_run_ok (env : Env) (o : Oracle) (paths : List String)
    (msg : String) (pp : List String) (r : GitHubRef) (c : GitHubCommit)
    (t : GitHubTree) (n : GitHubNewCommit)
    (htok : tokenPresent o.githubToken = true)
    (hp : processDeletePaths o.cwd paths = .ok pp)
    (hr : o.refResp = .ok r) (hc : o.commitResp = .ok c)
    (ht : o.treeResp = .ok t) (hn : o.newCommitResp = .ok n)
    (hu : o.updateRefResp = .ok ()) :
    delete_files_run env o paths msg
      = (.ok ⟨⟨n.sha, n.message, n.author_name, n.author_date⟩, pp, ⟨t.sha⟩⟩,
         [ApiCall.getRef env.branchName, ApiCall.getCommit r.object_sha,
          ApiCall.createTree c.tree_sha (deleteTreeEntries pp),
          ApiCall.createCommit msg t.sha [r.object_sha],
          ApiCall.updateRef env.branchName n.sha false]) := by
  simp only [delete_files_run, htok, hp, hr, hc, ht, hn, hu, if_true]

/-- A successful batch of write entries carries exactly the processed input
paths, in order. -/
theorem buildWriteEntries_paths (o : Oracle) (d : String) :
    ∀ (ps : List String) (es : List TreeEntrySpec),
      buildWriteEntries o d ps = .ok es → es.map TreeEntrySpec.path = ps := by
  intro ps
  induction ps with
  | nil =>
    intro es h
    simp only [buildWriteEntries] at h
    cases h
    rfl
  | cons p rest ih =>
    intro es h
    simp only [buildWriteEntries] at h
    cases hrd : o.readFile (commitFullPath d p) with
    | error m => rw [hrd] at h; cases h
    | ok content =>
      rw [hrd] at h
      cases hrest : buildWriteEntries o d rest with
      | error m => rw [hrest] at h; cases h
      | ok es' =>
        rw [hrest] at h
        cases h
        simp only [List.map_cons, TreeEntrySpec.path]
        rw [ih es' hrest]

/-- Delete tree entries carry exactly the processed paths, in order. -/
theorem deleteTreeEntries_paths (ps : List String) :
    (deleteTreeEntries ps).map TreeEntrySpec.path = ps := by
  simp only [deleteTreeEntries, List.map_map]
  have : (TreeEntrySpec.path ∘ fun p => TreeEntrySpec.shaNull p "100644" "blob")
      = fun p => p := by
    funext p
    rfl
  rw [this]
  exact List.map_id ps

/-- When the token precondition passes, the first event of a `commit_files`
run is always the get-ref network call, whatever the input paths are. -/
theorem commit_first_call (env : Env) (o : Oracle) (files : List String)
    (msg : String) (htok : tokenPresent o.githubToken = true) :
    (commit_files_run env o files msg).2.head?
      = some (ApiCall.getRef env.branchName) := by
  cases hr : o.refResp with
  | error f => rw [commit_run_ref_err env o files msg f htok hr]; rfl
  | ok r =>
    cases hc : o.commitResp with
    | error f => rw [commit_run_commit_err env o files msg r f htok hr hc]; rfl
    | ok c =>
      cases hes : buildWriteEntries o env.repoDir (files.map processedCommitPath) with
      | error m => rw [commit_run_read_err env o files msg r c m htok hr hc hes]; rfl
      | ok es =>
        cases ht : o.treeResp with
        | error f => rw [commit_run_tree_err env o files msg r c es f htok hr hc hes ht]; rfl
        | ok t =>
          cases hn : o.newCommitResp with
          | error f =>
            rw [commit_run_newCommit_err env o files msg r c es t f htok hr hc hes ht hn]; rfl
          | ok n =>
            cases hu : o.updateRefResp with
            | error f =>
              rw [commit_run_updateRef_err env o files msg r c es t n f htok hr hc hes ht hn hu]; rfl
            | ok u =>
              cases u
              rw [commit_run_ok env o files msg r c es t n htok hr hc hes ht hn hu]; rfl

/-- When the token precondition passes and path processing succeeds, the
first event of a `delete_files` run is always the get-ref network call. -/
theorem delete_first_call (env : Env) (o : Oracle) (paths : List String)
    (msg : String) (pp : List String)
    (htok : tokenPresent o.githubToken = true)
    (hp : processDeletePaths o.cwd paths = .ok pp) :
    (delete_files_run env o paths msg).2.head?
      = some (ApiCall.getRef env.branchName) := by
  cases hr : o.refResp with
  | error f => rw [delete_run_ref_err env o paths msg pp f htok hp hr]; rfl
  | ok r =>
    cases hc : o.commitResp with
    | error f => rw [delete_run_commit_err env o paths msg pp r f htok hp hr hc]; rfl
    | ok c =>
      cases ht : o.treeResp with
      | error f => rw [delete_run_tree_err env o paths msg pp r c f htok hp hr hc ht]; rfl
      | ok t =>
        cases hn : o.newCommitResp with
        | error f =>
          rw [delete_run_newCommit_err env o paths msg pp r c t f htok hp hr hc ht hn]; rfl
        | ok n =>
          cases hu : o.updateRefResp with
          | error f =>
            rw [delete_run_updateRef_err env o paths msg pp r c t n f htok hp hr hc ht hn hu]; rfl
          | ok u =>
            cases u
            rw [delete_run_ok env o paths msg pp r c t n htok hp hr hc ht hn hu]; rfl

/-- C2 counterexample: the update-ref request sent in step 6 carries only
the new commit hash and `force: false`; it is bit-for-bit identical whether
the branch tip read in step 1 was `H0` or `H0ALT`, so it cannot carry the
expected-current commit hash the claim describes. -/
theorem updateRef_no_expected_hash_cex :
    updateRefCalls (commit_files_run env0 okOracle ["a.txt"] "m").2
      = [ApiCall.updateRef "main" "H1" false]
    ∧ updateRefCalls (commit_files_run env0 okOracleAlt ["a.txt"] "m").2
      = [ApiCall.updateRef "main" "H1" false]
    ∧ okOracle.refResp = .ok ⟨"H0"⟩
    ∧ okOracleAlt.refResp = .ok ⟨"H0ALT"⟩
    ∧ ("H0" : String) ≠ "H0ALT" := by
  exact ⟨rfl, rfl, rfl, rfl, by decide⟩

/-- C2 amended: every update-ref request a `commit_files` run issues targets
the configured branch, is non-forcing (`force = false`), and carries exactly
the commit hash returned by create-commit — and, since an `ApiCall.updateRef`
request has no further components, it does not include the expected-current
commit hash; rejection of concurrent movement relies on the store's
non-fast-forward semantics for `force: false` updates. -/
theorem updateRef_nonforcing_new_sha_only (env : Env) (o : Oracle)
    (files : List String) (msg : String) (b s : String) (f : Bool)
    (h : ApiCall.updateRef b s f ∈ (commit_files_run env o files msg).2) :
    b = env.branchName ∧ f = false
      ∧ ∃ n, o.newCommitResp = .ok n ∧ s = n.sha := by
  unfold commit_files_run at h
  split at h
  · split at h
    · simp at h
    · split at h
      · simp at h
      · split at h
        · simp at h
        · split at h
          · simp at h
          · split at h
            · simp at h
            · rename_i n hn
              split at h
              · simp at h
                exact ⟨h.1, h.2.2, n, hn, h.2.1⟩
              · simp at h
                exact ⟨h.1, h.2.2, n, hn, h.2.1⟩
  · simp at h

/-- C2 witness: the amended statement applied to the happy-path run. -/
theorem updateRef_nonforcing_new_sha_only_witness :
    "main" = env0.branchName ∧ false = false
      ∧ ∃ n, okOracle.newCommitResp = .ok n ∧ "H1" = n.sha :=
  updateRef_nonforcing_new_sha_only env0 okOracle ["a.txt"] "m" "main" "H1" false
    (by decide)

/-- C3 counterexample: a `commit_files` request with zero entries is not
rejected — it performs all five network calls (submitting an empty override
list to create-tree) and succeeds; `delete_files` behaves the same way; and
duplicate paths within one request are accepted. -/
theorem empty_request_not_rejected_cex :
    (commit_files_run env0 okOracle [] "m").2
      = [ApiCall.getRef "main", ApiCall.getCommit "H0",
         ApiCall.createTree "T0" [], ApiCall.createCommit "m" "T1" ["H0"],
         ApiCall.updateRef "main" "H1" false]
    ∧ (delete_files_run env0 okOracle [] "m").2
      = [ApiCall.getRef "main", ApiCall.getCommit "H0",
         ApiCall.createTree "T0" [], ApiCall.createCommit "m" "T1" ["H0"],
         ApiCall.updateRef "main" "H1" false]
    ∧ (commit_files_run env0 okOracle ["a.txt", "a.txt"] "m").1
      = .ok ⟨⟨"H1", "init", "alice", "2024-01-01"⟩, ["a.txt", "a.txt"], ⟨"T1"⟩⟩ := by
  exact ⟨rfl, rfl, rfl⟩

/-- C3 amended: neither entry point validates the entry list — with the
token present, a zero-entry request still begins with the get-ref network
call (for both tools), and a request with duplicate paths is processed
without rejection. -/
theorem no_entry_list_validation (env : Env) (o : Oracle) (msg p : String)
    (htok : tokenPresent o.githubToken = true)
    (hrel : jsStartsWith p "/" = false) :
    (commit_files_run env o [] msg).2.head? = some (ApiCall.getRef env.branchName)
    ∧ (delete_files_run env o [] msg).2.head? = some (ApiCall.getRef env.branchName)
    ∧ (commit_files_run env o [p, p] msg).2.head?
        = some (ApiCall.getRef env.branchName)
    ∧ processDeletePaths o.cwd [p, p] = .ok [p, p] := by
  refine ⟨commit_first_call env o [] msg htok, ?_,
    commit_first_call env o [p, p] msg htok, ?_⟩
  · exact delete_first_call env o [] msg [] htok rfl
  · simp [processDeletePaths, processedDeletePath, hrel]

/-- C3 witness: the amended statement at the concrete configuration. -/
theorem no_entry_list_validation_witness :
    (commit_files_run env0 okOracle [] "m").2.head?
      = some (ApiCall.getRef env0.branchName)
    ∧ (delete_files_run env0 okOracle [] "m").2.head?
      = some (ApiCall.getRef env0.branchName)
    ∧ (commit_files_run env0 okOracle ["a.txt", "a.txt"] "m").2.head?
      = some (ApiCall.getRef env0.branchName)
    ∧ processDeletePaths okOracle.cwd ["a.txt", "a.txt"] = .ok ["a.txt", "a.txt"] :=
  no_entry_list_validation env0 okOracle "m" "a.txt" (by decide) (by decide)

/-- C4 counterexample: a write entry for the absolute path `/etc/passwd`
with repo root `/work/repo` is not rejected — the run performs all five
network calls and succeeds, having stripped the separator and read
`/work/repo/etc/passwd` locally. -/
theorem absolute_path_not_rejected_cex :
    commit_files_run env0 okOracle ["/etc/passwd"] "m"
      = (.ok ⟨⟨"H1", "init", "alice", "2024-01-01"⟩, ["etc/passwd"], ⟨"T1"⟩⟩,
         [ApiCall.getRef "main", ApiCall.getCommit "H0",
          ApiCall.createTree "T0"
            [TreeEntrySpec.content "etc/passwd" "100644" "blob"
              "contents:/work/repo/etc/passwd"],
          ApiCall.createCommit "m" "T1" ["H0"],
          ApiCall.updateRef "main" "H1" false]) := by
  rfl

/-- C4 amended: `commit_files` strips a single leading separator
(`/etc/passwd` becomes `etc/passwd`, to be read under the repo root) and
performs no path validation at all: with the token present, every input
list — absolute paths included — proceeds straight to the get-ref network
call, and no path-validation error exists on this entry point. -/
theorem commit_path_strip_no_validation (env : Env) (o : Oracle)
    (files : List String) (msg : String)
    (htok : tokenPresent o.githubToken = true) :
    processedCommitPath "/etc/passwd" = "etc/passwd"
    ∧ (commit_files_run env o files msg).2.head?
        = some (ApiCall.getRef env.branchName) := by
  exact ⟨rfl, commit_first_call env o files msg htok⟩

/-- C4 witness: the amended statement at the `/etc/passwd` scenario. -/
theorem commit_path_strip_no_validation_witness :
    processedCommitPath "/etc/passwd" = "etc/passwd"
    ∧ (commit_files_run env0 okOracle ["/etc/passwd"] "m").2.head?
        = some (ApiCall.getRef env0.branchName) :=
  commit_path_strip_no_validation env0 okOracle ["/etc/passwd"] "m" (by decide)

/-- C5 counterexample: the two entry points process the same input
differently — `commit_files` turns `/x` into `x`, while `delete_files`
rejects it (with cwd `/work/repo`). -/
theorem path_handling_differs_cex :
    ["/x"].map processedCommitPath = ["x"]
    ∧ processDeletePaths "/work/repo" ["/x"]
      = .error ("Path \x27/x\x27 must be relative to repository root or " ++
          "within current working directory") := by
  exact ⟨rfl, rfl⟩

/-- C5 amended: the two entry points agree only on lists of relative paths
(no leading separator), where both pass the input through unchanged; they
diverge on absolute paths, which `commit_files` accepts after stripping one
separator and `delete_files` rejects unless cwd-prefixed. -/
theorem path_handling_agree_on_relative (cwd : String) (files : List String)
    (h : ∀ p ∈ files, jsStartsWith p "/" = false) :
    files.map processedCommitPath = files
      ∧ processDeletePaths cwd files = .ok files := by
  induction files with
  | nil => exact ⟨rfl, rfl⟩
  | cons p rest ih =>
    have hp : jsStartsWith p "/" = false := h p (List.mem_cons_self p rest)
    have hrest := ih fun q hq => h q (List.mem_cons_of_mem p hq)
    constructor
    · simp only [List.map_cons, processedCommitPath, hp, Bool.false_eq_true,
        if_false, hrest.1]
    · simp only [processDeletePaths, processedDeletePath, hp, Bool.false_eq_true,
        if_false, hrest.2]

/-- C5 witness: the agreement statement at the two-file scenario list. -/
theorem path_handling_agree_on_relative_witness :
    ["a.txt", "b/c.txt"].map processedCommitPath = ["a.txt", "b/c.txt"]
      ∧ processDeletePaths "/work/repo" ["a.txt", "b/c.txt"]
          = .ok ["a.txt", "b/c.txt"] :=
  path_handling_agree_on_relative "/work/repo" ["a.txt", "b/c.txt"] (by decide)

/-- Like `okOracle` but create-tree fails with status 422 and payload
`tree payload`. -/
def treeFailOracle : Oracle :=
  ⟨some "tok",
   .ok ⟨"H0"⟩, .ok ⟨"T0"⟩, .error ⟨422, "tree payload"⟩,
   .ok ⟨"H1", "init", "alice", "2024-01-01"⟩, .ok (),
   fun p => .ok ("contents:" ++ p), "/work/repo"⟩

/-- The calls of a `commit_files` run always form a prefix of the six-step
script, in script order. -/
theorem commit_trace_ord (env : Env) (o : Oracle) (files : List String)
    (msg : String) :
    (commit_files_run env o files msg).2.map scriptOrder
      = List.range (commit_files_run env o files msg).2.length := by
  cases htok : tokenPresent o.githubToken with
  | false => rw [commit_run_no_token env o files msg htok]; rfl
  | true =>
    cases hr : o.refResp with
    | error f => rw [commit_run_ref_err env o files msg f htok hr]; rfl
    | ok r =>
      cases hc : o.commitResp with
      | error f => rw [commit_run_commit_err env o files msg r f htok hr hc]; rfl
      | ok c =>
        cases hes : buildWriteEntries o env.repoDir (files.map processedCommitPath) with
        | error m => rw [commit_run_read_err env o files msg r c m htok hr hc hes]; rfl
        | ok es =>
          cases ht : o.treeResp with
          | error f =>
            rw [commit_run_tree_err env o files msg r c es f htok hr hc hes ht]; rfl
          | ok t =>
            cases hn : o.newCommitResp with
            | error f =>
              rw [commit_run_newCommit_err env o files msg r c es t f htok hr hc hes ht hn]
              rfl
            | ok n =>
              cases hu : o.updateRefResp with
              | error f =>
                rw [commit_run_updateRef_err env o files msg r c es t n f htok hr hc hes ht hn hu]
                rfl
              | ok u =>
                cases u
                rw [commit_run_ok env o files msg r c es t n htok hr hc hes ht hn hu]
                rfl

/-- The calls of a `delete_files` run always form a prefix of the six-step
script, in script order. -/
theorem delete_trace_ord (env : Env) (o : Oracle) (paths : List String)
    (msg : String) :
    (delete_files_run env o paths msg).2.map scriptOrder
      = List.range (delete_files_run env o paths msg).2.length := by
  cases htok : tokenPresent o.githubToken with
  | false => rw [delete_run_no_token env o paths msg htok]; rfl
  | true =>
    cases hp : processDeletePaths o.cwd paths with
    | error m => rw [delete_run_paths_err env o paths msg m htok hp]; rfl
    | ok pp =>
      cases hr : o.refResp with
      | error f => rw [delete_run_ref_err env o paths msg pp f htok hp hr]; rfl
      | ok r =>
        cases hc : o.commitResp with
        | error f => rw [delete_run_commit_err env o paths msg pp r f htok hp hr hc]; rfl
        | ok c =>
          cases ht : o.treeResp with
          | error f =>
            rw [delete_run_tree_err env o paths msg pp r c f htok hp hr hc ht]; rfl
          | ok t =>
            cases hn : o.newCommitResp with
            | error f =>
              rw [delete_run_newCommit_err env o paths msg pp r c t f htok hp hr hc ht hn]
              rfl
            | ok n =>
              cases hu : o.updateRefResp with
              | error f =>
                rw [delete_run_updateRef_err env o paths msg pp r c t n f htok hp hr hc ht hn hu]
                rfl
              | ok u =>
                cases u
                rw [delete_run_ok env o paths msg pp r c t n htok hp hr hc ht hn hu]
                rfl

/-- A `commit_files` run issues an update-ref call only if get-ref,
get-commit, the local reads, create-tree and create-commit all succeeded. -/
theorem commit_updateRef_guard (env : Env) (o : Oracle) (files : List String)
    (msg : String)
    (h : ∃ b s f, ApiCall.updateRef b s f ∈ (commit_files_run env o files msg).2) :
    (∃ r, o.refResp = .ok r) ∧ (∃ c, o.commitResp = .ok c)
    ∧ (∃ es, buildWriteEntries o env.repoDir (files.map processedCommitPath) = .ok es)
    ∧ (∃ t, o.treeResp = .ok t) ∧ (∃ n, o.newCommitResp = .ok n) := by
  obtain ⟨b, s, f, hmem⟩ := h
  cases htok : tokenPresent o.githubToken with
  | false => rw [commit_run_no_token env o files msg htok] at hmem; simp at hmem
  | true =>
    cases hr : o.refResp with
    | error f' =>
      rw [commit_run_ref_err env o files msg f' htok hr] at hmem; simp at hmem
    | ok r =>
      cases hc : o.commitResp with
      | error f' =>
        rw [commit_run_commit_err env o files msg r f' htok hr hc] at hmem
        simp at hmem
      | ok c =>
        cases hes : buildWriteEntries o env.repoDir (files.map processedCommitPath) with
        | error m =>
          rw [commit_run_read_err env o files msg r c m htok hr hc hes] at hmem
          simp at hmem
        | ok es =>
          cases ht : o.treeResp with
          | error f' =>
            rw [commit_run_tree_err env o files msg r c es f' htok hr hc hes ht] at hmem
            simp at hmem
          | ok t =>
            cases hn : o.newCommitResp with
            | error f' =>
              rw [commit_run_newCommit_err env o files msg r c es t f' htok hr hc hes ht hn] at hmem
              simp at hmem
            | ok n =>
              exact ⟨⟨r, rfl⟩, ⟨c, rfl⟩, ⟨es, rfl⟩, ⟨t, rfl⟩, ⟨n, rfl⟩⟩

/-- A `delete_files` run issues an update-ref call only if path processing,
get-ref, get-commit, create-tree and create-commit all succeeded. -/
theorem delete_updateRef_guard (env : Env) (o : Oracle) (paths : List String)
    (msg : String)
    (h : ∃ b s f, ApiCall.updateRef b s f ∈ (delete_files_run env o paths msg).2) :
    (∃ pp, processDeletePaths o.cwd paths = .ok pp)
    ∧ (∃ r, o.refResp = .ok r) ∧ (∃ c, o.commitResp = .ok c)
    ∧ (∃ t, o.treeResp = .ok t) ∧ (∃ n, o.newCommitResp = .ok n) := by
  obtain ⟨b, s, f, hmem⟩ := h
  cases htok : tokenPresent o.githubToken with
  | false => rw [delete_run_no_token env o paths msg htok] at hmem; simp at hmem
  | true =>
    cases hp : processDeletePaths o.cwd paths with
    | error m => rw [delete_run_paths_err env o paths msg m htok hp] at hmem; simp at hmem
    | ok pp =>
      cases hr : o.refResp with
      | error f' =>
        rw [delete_run_ref_err env o paths msg pp f' htok hp hr] at hmem; simp at hmem
      | ok r =>
        cases hc : o.commitResp with
        | error f' =>
          rw [delete_run_commit_err env o paths msg pp r f' htok hp hr hc] at hmem
          simp at hmem
        | ok c =>
          cases ht : o.treeResp with
          | error f' =>
            rw [delete_run_tree_err env o paths msg pp r c f' htok hp hr hc ht] at hmem
            simp at hmem
          | ok t =>
            cases hn : o.newCommitResp with
            | error f' =>
              rw [delete_run_newCommit_err env o paths msg pp r c t f' htok hp hr hc ht hn] at hmem
              simp at hmem
            | ok n =>
              exact ⟨⟨pp, rfl⟩, ⟨r, rfl⟩, ⟨c, rfl⟩, ⟨t, rfl⟩, ⟨n, rfl⟩⟩

/-- A failed `commit_files` run leaves the branch at its prior commit. -/
theorem commit_error_branch (env : Env) (o : Oracle) (files : List String)
    (msg : String) (init e : String)
    (h : (commit_files_run env o files msg).1 = .error e) :
    finalBranchSha o init (commit_files_run env o files msg).2 = init := by
  cases htok : tokenPresent o.githubToken with
  | false => rw [commit_run_no_token env o files msg htok]; rfl
  | true =>
    cases hr : o.refResp with
    | error f => rw [commit_run_ref_err env o files msg f htok hr]; rfl
    | ok r =>
      cases hc : o.commitResp with
      | error f => rw [commit_run_commit_err env o files msg r f htok hr hc]; rfl
      | ok c =>
        cases hes : buildWriteEntries o env.repoDir (files.map processedCommitPath) with
        | error m => rw [commit_run_read_err env o files msg r c m htok hr hc hes]; rfl
        | ok es =>
          cases ht : o.treeResp with
          | error f =>
            rw [commit_run_tree_err env o files msg r c es f htok hr hc hes ht]; rfl
          | ok t =>
            cases hn : o.newCommitResp with
            | error f =>
              rw [commit_run_newCommit_err env o files msg r c es t f htok hr hc hes ht hn]
              rfl
            | ok n =>
              cases hu : o.updateRefResp with
              | error f =>
                rw [commit_run_updateRef_err env o files msg r c es t n f htok hr hc hes ht hn hu]
                simp [finalBranchSha, hu]
              | ok u =>
                cases u
                rw [commit_run_ok env o files msg r c es t n htok hr hc hes ht hn hu] at h
                simp at h

/-- A successful `commit_files` run moves the branch to the returned commit
hash by exactly one non-forcing update-ref call, and the single tree it
created covers exactly the processed input paths. -/
theorem commit_ok_branch (env : Env) (o : Oracle) (files : List String)
    (msg : String) (init : String) (res : CommitFilesResult)
    (h : (commit_files_run env o files msg).1 = .ok res) :
    finalBranchSha o init (commit_files_run env o files msg).2 = res.commit.sha
    ∧ updateRefCalls (commit_files_run env o files msg).2
        = [ApiCall.updateRef env.branchName res.commit.sha false]
    ∧ ∃ bt es, ApiCall.createTree bt es ∈ (commit_files_run env o files msg).2
        ∧ es.map TreeEntrySpec.path = files.map processedCommitPath := by
  cases htok : tokenPresent o.githubToken with
  | false => rw [commit_run_no_token env o files msg htok] at h; simp at h
  | true =>
    cases hr : o.refResp with
    | error f => rw [commit_run_ref_err env o files msg f htok hr] at h; simp at h
    | ok r =>
      cases hc : o.commitResp with
      | error f =>
        rw [commit_run_commit_err env o files msg r f htok hr hc] at h; simp at h
      | ok c =>
        cases hes : buildWriteEntries o env.repoDir (files.map processedCommitPath) with
        | error m =>
          rw [commit_run_read_err env o files msg r c m htok hr hc hes] at h
          simp at h
        | ok es =>
          cases ht : o.treeResp with
          | error f =>
            rw [commit_run_tree_err env o files msg r c es f htok hr hc hes ht] at h
            simp at h
          | ok t =>
            cases hn : o.newCommitResp with
            | error f =>
              rw [commit_run_newCommit_err env o files msg r c es t f htok hr hc hes ht hn] at h
              simp at h
            | ok n =>
              cases hu : o.updateRefResp with
              | error f =>
                rw [commit_run_updateRef_err env o files msg r c es t n f htok hr hc hes ht hn hu] at h
                simp at h
              | ok u =>
                cases u
                rw [commit_run_ok env o files msg r c es t n htok hr hc hes ht hn hu] at h
                rw [commit_run_ok env o files msg r c es t n htok hr hc hes ht hn hu]
                simp only [] at h
                rw [Except.ok.injEq] at h
                subst h
                refine ⟨by simp [finalBranchSha, hu], by rfl, c.tree_sha, es, by simp,
                  buildWriteEntries_paths o env.repoDir _ es hes⟩

/-- A failed `delete_files` run leaves the branch at its prior commit. -/
theorem delete_error_branch (env : Env) (o : Oracle) (paths : List String)
    (msg : String) (init e : String)
    (h : (delete_files_run env o paths msg).1 = .error e) :
    finalBranchSha o init (delete_files_run env o paths msg).2 = init := by
  cases htok : tokenPresent o.githubToken with
  | false => rw [delete_run_no_token env o paths msg htok]; rfl
  | true =>
    cases hp : processDeletePaths o.cwd paths with
    | error m => rw [delete_run_paths_err env o paths msg m htok hp]; rfl
    | ok pp =>
      cases hr : o.refResp with
      | error f => rw [delete_run_ref_err env o paths msg pp f htok hp hr]; rfl
      | ok r =>
        cases hc : o.commitResp with
        | error f => rw [delete_run_commit_err env o paths msg pp r f htok hp hr hc]; rfl
        | ok c =>
          cases ht : o.treeResp with
          | error f =>
            rw [delete_run_tree_err env o paths msg pp r c f htok hp hr hc ht]; rfl
          | ok t =>
            cases hn : o.newCommitResp with
            | error f =>
              rw [delete_run_newCommit_err env o paths msg pp r c t f htok hp hr hc ht hn]
              rfl
            | ok n =>
              cases hu : o.updateRefResp with
              | error f =>
                rw [delete_run_updateRef_err env o paths msg pp r c t n f htok hp hr hc ht hn hu]
                simp [finalBranchSha, hu]
              | ok u =>
                cases u
                rw [delete_run_ok env o paths msg pp r c t n htok hp hr hc ht hn hu] at h
                simp at h

/-- A successful `delete_files` run moves the branch to the returned commit
hash by exactly one non-forcing update-ref call, and the single tree it
created covers exactly the processed input paths. -/
theorem delete_ok_branch (env : Env) (o : Oracle) (paths : List String)
    (msg : String) (init : String) (res : DeleteFilesResult)
    (h : (delete_files_run env o paths msg).1 = .ok res) :
    finalBranchSha o init (delete_files_run env o paths msg).2 = res.commit.sha
    ∧ updateRefCalls (delete_files_run env o paths msg).2
        = [ApiCall.updateRef env.branchName res.commit.sha false]
    ∧ ∃ bt es pp, processDeletePaths o.cwd paths = .ok pp
        ∧ ApiCall.createTree bt es ∈ (delete_files_run env o paths msg).2
        ∧ es.map TreeEntrySpec.path = pp := by
  cases htok : tokenPresent o.githubToken with
  | false => rw [delete_run_no_token env o paths msg htok] at h; simp at h
  | true =>
    cases hp : processDeletePaths o.cwd paths with
    | error m => rw [delete_run_paths_err env o paths msg m htok hp] at h; simp at h
    | ok pp =>
      cases hr : o.refResp with
      | error f =>
        rw [delete_run_ref_err env o paths msg pp f htok hp hr] at h; simp at h
      | ok r =>
        cases hc : o.commitResp with
        | error f =>
          rw [delete_run_commit_err env o paths msg pp r f htok hp hr hc] at h
          simp at h
        | ok c =>
          cases ht : o.treeResp with
          | error f =>
            rw [delete_run_tree_err env o paths msg pp r c f htok hp hr hc ht] at h
            simp at h
          | ok t =>
            cases hn : o.newCommitResp with
            | error f =>
              rw [delete_run_newCommit_err env o paths msg pp r c t f htok hp hr hc ht hn] at h
              simp at h
            | ok n =>
              cases hu : o.updateRefResp with
              | error f =>
                rw [delete_run_updateRef_err env o paths msg pp r c t n f htok hp hr hc ht hn hu] at h
                simp at h
              | ok u =>
                cases u
                rw [delete_run_ok env o paths msg pp r c t n htok hp hr hc ht hn hu] at h
                rw [delete_run_ok env o paths msg pp r c t n htok hp hr hc ht hn hu]
                simp only [] at h
                rw [Except.ok.injEq] at h
                subst h
                refine ⟨by simp [finalBranchSha, hu], by rfl, c.tree_sha,
                  deleteTreeEntries pp, pp, rfl, by simp, deleteTreeEntries_paths pp⟩

/-- C1: both entry points run the six steps in strict script order; the
branch-reference update is attempted only after get-ref, get-commit, the
entry construction, create-tree and create-commit have all succeeded; and
each call is all-or-nothing on the branch — a failed run leaves the branch
at its prior commit, while a successful run moves it by exactly one
update-ref call to a single new commit whose tree covers every entry of the
request. -/
theorem mutation_atomicity (env : Env) (o : Oracle) (files dpaths : List String)
    (cmsg dmsg : String) :
    ((commit_files_run env o files cmsg).2.map scriptOrder
        = List.range (commit_files_run env o files cmsg).2.length
      ∧ (delete_files_run env o dpaths dmsg).2.map scriptOrder
        = List.range (delete_files_run env o dpaths dmsg).2.length)
    ∧ ((∃ b s f, ApiCall.updateRef b s f ∈ (commit_files_run env o files cmsg).2) →
        (∃ r, o.refResp = .ok r) ∧ (∃ c, o.commitResp = .ok c)
        ∧ (∃ es, buildWriteEntries o env.repoDir (files.map processedCommitPath) = .ok es)
        ∧ (∃ t, o.treeResp = .ok t) ∧ (∃ n, o.newCommitResp = .ok n))
    ∧ ((∃ b s f, ApiCall.updateRef b s f ∈ (delete_files_run env o dpaths dmsg).2) →
        (∃ pp, processDeletePaths o.cwd dpaths = .ok pp)
        ∧ (∃ r, o.refResp = .ok r) ∧ (∃ c, o.commitResp = .ok c)
        ∧ (∃ t, o.treeResp = .ok t) ∧ (∃ n, o.newCommitResp = .ok n))
    ∧ (∀ init : String,
        (∀ e, (commit_files_run env o files cmsg).1 = .error e →
          finalBranchSha o init (commit_files_run env o files cmsg).2 = init)
        ∧ (∀ res, (commit_files_run env o files cmsg).1 = .ok res →
          finalBranchSha o init (commit_files_run env o files cmsg).2 = res.commit.sha
          ∧ updateRefCalls (commit_files_run env o files cmsg).2
              = [ApiCall.updateRef env.branchName res.commit.sha false]
          ∧ ∃ bt es, ApiCall.createTree bt es ∈ (commit_files_run env o files cmsg).2
              ∧ es.map TreeEntrySpec.path = files.map processedCommitPath)
        ∧ (∀ e, (delete_files_run env o dpaths dmsg).1 = .error e →
          finalBranchSha o init (delete_files_run env o dpaths dmsg).2 = init)
        ∧ (∀ res, (delete_files_run env o dpaths dmsg).1 = .ok res →
          finalBranchSha o init (delete_files_run env o dpaths dmsg).2 = res.commit.sha
          ∧ updateRefCalls (delete_files_run env o dpaths dmsg).2
              = [ApiCall.updateRef env.branchName res.commit.sha false]
          ∧ ∃ bt es pp, processDeletePaths o.cwd dpaths = .ok pp
              ∧ ApiCall.createTree bt es ∈ (delete_files_run env o dpaths dmsg).2
              ∧ es.map TreeEntrySpec.path = pp)) :=
  ⟨⟨commit_trace_ord env o files cmsg, delete_trace_ord env o dpaths dmsg⟩,
   commit_updateRef_guard env o files cmsg,
   delete_updateRef_guard env o dpaths dmsg,
   fun init =>
     ⟨fun e h => commit_error_branch env o files cmsg init e h,
      fun res h => commit_ok_branch env o files cmsg init res h,
      fun e h => delete_error_branch env o dpaths dmsg init e h,
      fun res h => delete_ok_branch env o dpaths dmsg init res h⟩⟩

/-- C1 witness: the atomicity statement applied to the happy-path run. -/
theorem mutation_atomicity_witness :
    finalBranchSha okOracle "H0"
        (commit_files_run env0 okOracle ["a.txt", "b/c.txt"] "init").2 = "H1"
    ∧ updateRefCalls (commit_files_run env0 okOracle ["a.txt", "b/c.txt"] "init").2
        = [ApiCall.updateRef env0.branchName "H1" false] := by
  have h := ((mutation_atomicity env0 okOracle ["a.txt", "b/c.txt"] ["old.txt"]
      "init" "del").2.2.2 "H0").2.1
    ⟨⟨"H1", "init", "alice", "2024-01-01"⟩, ["a.txt", "b/c.txt"], ⟨"T1"⟩⟩ rfl
  exact ⟨h.1, h.2.1⟩

/-- C6 counterexample: a get-ref failure raises an error carrying only the
numeric status — two runs whose get-ref failures differ only in their
provider payload text produce the identical error, so that payload is not
preserved verbatim. -/
theorem ref_error_payload_dropped_cex :
    (commit_files_run env0 refFailOracleA ["a.txt"] "m").1
      = .error "Failed to get branch reference: 404"
    ∧ (commit_files_run env0 refFailOracleB ["a.txt"] "m").1
      = .error "Failed to get branch reference: 404"
    ∧ refFailOracleA.refResp = .error ⟨404, "payload one"⟩
    ∧ refFailOracleB.refResp = .error ⟨404, "payload two"⟩
    ∧ ("payload one" : String) ≠ "payload two" :=
  ⟨rfl, rfl, rfl, rfl, by decide⟩

/-- C6 amended: create-tree, create-commit and update-ref failures preserve
the provider payload text verbatim in the raised error, while get-ref and
get-commit failures carry only the numeric status and discard the payload;
in every case the raised message is propagated unchanged into the handler's
in-band error result. -/
theorem error_payload_propagation (env : Env) (o : Oracle) (files : List String)
    (msg : String) (f : HttpFailure)
    (htok : tokenPresent o.githubToken = true) :
    (o.refResp = .error f →
      (commit_files_run env o files msg).1
        = .error ("Failed to get branch reference: " ++ toString f.status))
    ∧ (∀ r, o.refResp = .ok r → o.commitResp = .error f →
      (commit_files_run env o files msg).1
        = .error ("Failed to get base commit: " ++ toString f.status))
    ∧ (∀ r c es, o.refResp = .ok r → o.commitResp = .ok c →
        buildWriteEntries o env.repoDir (files.map processedCommitPath) = .ok es →
        o.treeResp = .error f →
      (commit_files_run env o files msg).1
        = .error ("Failed to create tree: " ++ toString f.status ++ " - " ++ f.body))
    ∧ (∀ r c es t, o.refResp = .ok r → o.commitResp = .ok c →
        buildWriteEntries o env.repoDir (files.map processedCommitPath) = .ok es →
        o.treeResp = .ok t → o.newCommitResp = .error f →
      (commit_files_run env o files msg).1
        = .error ("Failed to create commit: " ++ toString f.status ++ " - " ++ f.body))
    ∧ (∀ r c es t n, o.refResp = .ok r → o.commitResp = .ok c →
        buildWriteEntries o env.repoDir (files.map processedCommitPath) = .ok es →
        o.treeResp = .ok t → o.newCommitResp = .ok n → o.updateRefResp = .error f →
      (commit_files_run env o files msg).1
        = .error ("Failed to update reference: " ++ toString f.status ++ " - " ++ f.body))
    ∧ (∀ m tr, commit_files_run env o files msg = (.error m, tr) →
      (commit_files_tool env o files msg).1 = ⟨"Error: " ++ m, true⟩) := by
  refine ⟨?_, ?_, ?_, ?_, ?_, ?_⟩
  · intro hr
    rw [commit_run_ref_err env o files msg f htok hr]
  · intro r hr hc
    rw [commit_run_commit_err env o files msg r f htok hr hc]
  · intro r c es hr hc hes ht
    rw [commit_run_tree_err env o files msg r c es f htok hr hc hes ht]
  · intro r c es t hr hc hes ht hn
    rw [commit_run_newCommit_err env o files msg r c es t f htok hr hc hes ht hn]
  · intro r c es t n hr hc hes ht hn hu
    rw [commit_run_updateRef_err env o files msg r c es t n f htok hr hc hes ht hn hu]
  · intro m tr h
    unfold commit_files_tool
    rw [h]

/-- C6 witness: the payload-preserving branch at a concrete create-tree
failure. -/
theorem error_payload_propagation_witness :
    (commit_files_run env0 treeFailOracle ["a.txt"] "m").1
      = .error ("Failed to create tree: " ++ toString (422 : Nat) ++ " - "
          ++ "tree payload") :=
  (error_payload_propagation env0 treeFailOracle ["a.txt"] "m" ⟨422, "tree payload"⟩
      (by decide)).2.2.1 ⟨"H0"⟩ ⟨"T0"⟩
    [TreeEntrySpec.content "a.txt" "100644" "blob" "contents:/work/repo/a.txt"]
    rfl rfl rfl rfl

/-- C7: committing `["a.txt", "b/c.txt"]` with message `init` against branch
`main` at commit `H0` with tree `T0` issues exactly get-ref(main),
get-commit(H0), create-tree(base T0, both entries), create-commit(tree T1,
parents [H0]), update-ref(main, H1, force false), in that order, and returns
commit hash `H1`, tree hash `T1` and the affected paths; moreover every
create-commit call either tool ever issues has exactly one parent, the
branch tip read in step 1. -/
theorem happy_path_scenario :
    commit_files_run env0 okOracle ["a.txt", "b/c.txt"] "init"
      = (.ok ⟨⟨"H1", "init", "alice", "2024-01-01"⟩, ["a.txt", "b/c.txt"], ⟨"T1"⟩⟩,
         [ApiCall.getRef "main", ApiCall.getCommit "H0",
          ApiCall.createTree "T0"
            [TreeEntrySpec.content "a.txt" "100644" "blob" "contents:/work/repo/a.txt",
             TreeEntrySpec.content "b/c.txt" "100644" "blob" "contents:/work/repo/b/c.txt"],
          ApiCall.createCommit "init" "T1" ["H0"],
          ApiCall.updateRef "main" "H1" false])
    ∧ (∀ (env : Env) (o : Oracle) (files : List String) (msg m t : String)
         (ps : List String),
        ApiCall.createCommit m t ps ∈ (commit_files_run env o files msg).2 →
        ∃ r, o.refResp = .ok r ∧ ps = [r.object_sha])
    ∧ (∀ (env : Env) (o : Oracle) (paths : List String) (msg m t : String)
         (ps : List String),
        ApiCall.createCommit m t ps ∈ (delete_files_run env o paths msg).2 →
        ∃ r, o.refResp = .ok r ∧ ps = [r.object_sha]) := by
  refine ⟨rfl, ?_, ?_⟩
  · intro env o files msg m t ps h
    unfold commit_files_run at h
    split at h
    · split at h
      · simp at h
      · rename_i refData hrr
        split at h
        · simp at h
        · split at h
          · simp at h
          · split at h
            · simp at h
            · split at h
              · simp at h
                exact ⟨refData, hrr, h.2.2⟩
              · split at h
                · simp at h
                  exact ⟨refData, hrr, h.2.2⟩
                · simp at h
                  exact ⟨refData, hrr, h.2.2⟩
    · simp at h
  · intro env o paths msg m t ps h
    unfold delete_files_run at h
    split at h
    · split at h
      · simp at h
      · split at h
        · simp at h
        · rename_i refData hrr
          split at h
          · simp at h
          · split at h
            · simp at h
            · split at h
              · simp at h
                exact ⟨refData, hrr, h.2.2⟩
              · split at h
                · simp at h
                  exact ⟨refData, hrr, h.2.2⟩
                · simp at h
                  exact ⟨refData, hrr, h.2.2⟩
    · simp at h

/-- C7 witness: the single-parent statement at the happy-path run. -/
theorem happy_path_scenario_witness :
    ∃ r, okOracle.refResp = .ok r ∧ ["H0"] = [r.object_sha] :=
  happy_path_scenario.2.1 env0 okOracle ["a.txt", "b/c.txt"] "init" "init" "T1"
    ["H0"] (by decide)

/-- C8: `delete_files` path processing accepts an absolute path exactly when
it extends the current working directory, converting it by dropping the
cwd prefix plus one separator character; any other absolute path is rejected
with the path-validation error, and a rejected list causes the run to end
before any network call. -/
theorem delete_absolute_path_handling (cwd p : String) (env : Env) (o : Oracle)
    (paths : List String) (msg e : String) :
    (jsStartsWith p "/" = true → jsStartsWith p cwd = true →
      processedDeletePath cwd p = .ok (jsSliceFrom p (cwd.length + 1)))
    ∧ (jsStartsWith p "/" = true → jsStartsWith p cwd = false →
      processedDeletePath cwd p
        = .error ("Path \x27" ++ p ++
            "\x27 must be relative to repository root or within current working directory"))
    ∧ processedDeletePath "/work/repo" "/work/repo/src/a.txt" = .ok "src/a.txt"
    ∧ (processDeletePaths o.cwd paths = .error e →
        (delete_files_run env o paths msg).2 = []) := by
  refine ⟨?_, ?_, rfl, ?_⟩
  · intro h1 h2
    simp [processedDeletePath, h1, h2]
  · intro h1 h2
    simp [processedDeletePath, h1, h2]
  · intro hp
    cases htok : tokenPresent o.githubToken with
    | false => rw [delete_run_no_token env o paths msg htok]
    | true => rw [delete_run_paths_err env o paths msg e htok hp]

/-- C8 witness: the cwd-prefix acceptance branch at a concrete path. -/
theorem delete_absolute_path_handling_witness :
    processedDeletePath "/work/repo" "/work/repo/x"
      = .ok (jsSliceFrom "/work/repo/x" ("/work/repo".length + 1)) :=
  (delete_absolute_path_handling "/work/repo" "/work/repo/x" env0 okOracle [] "m"
      "e").1 (by decide) (by decide)

/-- C9 counterexample: for the input `//etc/passwd` the processed path is
`/etc/passwd`, which still begins with a separator, so the local read
happens at `/etc/passwd` itself — not at `join(REPO_DIR, processedPath)`,
which would be `/work/repo/etc/passwd` — and the run sends `/etc/passwd`
as the tree path with the content read from outside the repository root. -/
theorem commit_read_location_cex :
    processedCommitPath "//etc/passwd" = "/etc/passwd"
    ∧ commitFullPath "/work/repo" "/etc/passwd" = "/etc/passwd"
    ∧ posixJoin "/work/repo" "/etc/passwd" = "/work/repo/etc/passwd"
    ∧ ("/etc/passwd" : String) ≠ "/work/repo/etc/passwd"
    ∧ (commit_files_run env0 okOracle ["//etc/passwd"] "m").2
      = [ApiCall.getRef "main", ApiCall.getCommit "H0",
         ApiCall.createTree "T0"
           [TreeEntrySpec.content "/etc/passwd" "100644" "blob" "contents:/etc/passwd"],
         ApiCall.createCommit "m" "T1" ["H0"],
         ApiCall.updateRef "main" "H1" false] :=
  ⟨rfl, rfl, rfl, by decide, rfl⟩

/-- C9 amended: `commit_files` applies exactly one normalization — stripping
a single leading separator — and performs no containment check; the
processed path is sent unchanged as the tree path; the local file is read
from `join(REPO_DIR, processedPath)` when the processed path does not itself
begin with a separator, and from the processed path directly otherwise
(reachable for inputs beginning with `//`); parent-directory segments pass
through, and the joined path may resolve outside the repository root with no
validation error being raised. -/
theorem commit_no_containment_check (repoDir p : String) :
    (jsStartsWith p "/" = false → commitFullPath repoDir p = posixJoin repoDir p)
    ∧ (jsStartsWith p "/" = true → commitFullPath repoDir p = p)
    ∧ posixJoin "/work/repo" "../x" = "/work/x"
    ∧ jsStartsWith "/work/x" "/work/repo" = false
    ∧ commit_files_run env0 okOracle ["../x"] "m"
      = (.ok ⟨⟨"H1", "init", "alice", "2024-01-01"⟩, ["../x"], ⟨"T1"⟩⟩,
         [ApiCall.getRef "main", ApiCall.getCommit "H0",
          ApiCall.createTree "T0"
            [TreeEntrySpec.content "../x" "100644" "blob" "contents:/work/x"],
          ApiCall.createCommit "m" "T1" ["H0"],
          ApiCall.updateRef "main" "H1" false]) := by
  refine ⟨?_, ?_, rfl, rfl, rfl⟩
  · intro h
    simp [commitFullPath, h]
  · intro h
    simp [commitFullPath, h]

/-- C9 witness: the join branch at a relative path. -/
theorem commit_no_containment_check_witness :
    commitFullPath "/work/repo" "a.txt" = posixJoin "/work/repo" "a.txt" :=
  (commit_no_containment_check "/work/repo" "a.txt").1 (by decide)

/-- C10: whatever a run of either tool does — any step failing, a local read
failing, or full success — the handler returns an in-band result: on error
the `isError` flag is set and the text is `Error: ` followed by the thrown
message; nothing escapes the handler, and the calls issued are exactly those
of the single underlying run (no retry). -/
theorem tool_error_handler (env : Env) (o : Oracle) (files dpaths : List String)
    (cmsg dmsg : String) :
    (∀ m tr, commit_files_run env o files cmsg = (.error m, tr) →
      commit_files_tool env o files cmsg = (⟨"Error: " ++ m, true⟩, tr))
    ∧ (∀ r tr, commit_files_run env o files cmsg = (.ok r, tr) →
      commit_files_tool env o files cmsg = (⟨renderCommitFilesResult r, false⟩, tr))
    ∧ (∀ m tr, delete_files_run env o dpaths dmsg = (.error m, tr) →
      delete_files_tool env o dpaths dmsg = (⟨"Error: " ++ m, true⟩, tr))
    ∧ (∀ r tr, delete_files_run env o dpaths dmsg = (.ok r, tr) →
      delete_files_tool env o dpaths dmsg = (⟨renderDeleteFilesResult r, false⟩, tr)) := by
  refine ⟨?_, ?_, ?_, ?_⟩
  · intro m tr h
    unfold commit_files_tool
    rw [h]
  · intro r tr h
    unfold commit_files_tool
    rw [h]
  · intro m tr h
    unfold delete_files_tool
    rw [h]
  · intro r tr h
    unfold delete_files_tool
    rw [h]

/-- C10 witness: the error branch of the handler at a concrete get-ref
failure. -/
theorem tool_error_handler_witness :
    commit_files_tool env0 refFailOracleA ["a.txt"] "m"
      = (⟨"Error: " ++ "Failed to get branch reference: 404", true⟩,
         [ApiCall.getRef "main"]) :=
  (tool_error_handler env0 refFailOracleA ["a.txt"] [] "m" "d").1
    "Failed to get branch reference: 404" [ApiCall.getRef "main"] rfl

end GithubFileOps
